import Mathlib

/-!
# Verification of `laptop_battery_monitor.py`

Shallow embedding of the battery-monitoring core of
`src/laptop_battery_monitor.py`: the per-tick low-battery state machine of
`TrayMonitor._monitor_loop` (lines 417-482), the configuration loader
`load_config` (lines 143-150), and the `start_monitoring` / `stop_monitoring`
lifecycle operations (lines 282-298).

Timestamps (`time.time()`) and battery percentages are modelled as `Int`;
`int(now - self._low_start_time)` on integer-valued instants is exact, so the
`Int` subtraction below coincides with Python's floor conversion.
-/

set_option autoImplicit false

namespace BatteryMonitor

/-- A battery sample as returned by `_get_battery_info`:
`{"percent": bat.percent, "plugged": bat.power_plugged}` (the `time_left`
field is never read by the monitor loop and is omitted). -/
structure Sample where
  percent : Int
  plugged : Bool
  deriving DecidableEq, Repr

/-- The configuration values the monitor loop extracts each cycle
(lines 423-426): `threshold`, `interval`, `resend_seconds = resend_minutes * 60`
and the `telegram_enabled` flag. -/
structure Config where
  threshold : Int
  interval : Int
  resend_seconds : Int
  telegram_enabled : Bool
  deriving DecidableEq, Repr

/-- The mutable per-episode state of `TrayMonitor`:
`_last_alert_time`, `_low_start_time`, `_was_low` (lines 258-260). -/
structure MonitorState where
  last_alert_time : Option Int
  low_start_time : Option Int
  was_low : Bool
  deriving DecidableEq, Repr

/-- The state a fresh `TrayMonitor.__init__` produces. -/
def MonitorState.initial : MonitorState :=
  { last_alert_time := none, low_start_time := none, was_low := false }

/-- The two delivery channels used inside the tick: `send_telegram_async`
(guarded by `telegram_enabled`) and `self._notify` (unconditional). -/
inductive Channel where
  | telegram
  | localNotify
  deriving DecidableEq, Repr

/-- The alert events a tick can produce: the low-battery message
(line 440) and the recovery message (lines 452-467).  The recovery duration is
`int(now - self._low_start_time)` when `_low_start_time` is set, `None`
otherwise. -/
inductive AlertEvent where
  | lowBatteryAlert (percent : Int)
  | recoveryNotice (percent : Int) (durationSeconds : Option Int)
  deriving DecidableEq, Repr

/-- Emission of one event to its channels, in code order: telegram first when
`telegram_enabled`, then the local notification, which is unconditional
(lines 441-443 and 465-467). -/
def emitEvent (telegramEnabled : Bool) (ev : AlertEvent) : List (Channel × AlertEvent) :=
  (if telegramEnabled then [(Channel.telegram, ev)] else []) ++ [(Channel.localNotify, ev)]

/-- The resend gate of line 439:
`(self._last_alert_time is None) or ((now - self._last_alert_time) >= resend_seconds)`. -/
def alertDue (lastAlert : Option Int) (resendSeconds now : Int) : Bool :=
  match lastAlert with
  | none => true
  | some t => decide (resendSeconds ≤ now - t)

/-- One evaluation of the battery branch of `_monitor_loop` (lines 428-477).
`info = none` models `_get_battery_info()` returning `None` (no battery
sensor): the whole block is skipped.  Returns the new monitor state and the
channel/event emissions of this tick, in program order. -/
def monitorTick (cfg : Config) (st : MonitorState) (info : Option Sample) (now : Int) :
    MonitorState × List (Channel × AlertEvent) :=
  match info with
  | none => (st, [])
  | some s =>
    if s.plugged = false ∧ s.percent ≤ cfg.threshold then
      -- lines 437-448: enter low state, send (or resend) the low-battery alert
      let fire := alertDue st.last_alert_time cfg.resend_seconds now
      let evs := if fire then emitEvent cfg.telegram_enabled (.lowBatteryAlert s.percent) else []
      let lastAlert := if fire then some now else st.last_alert_time
      let lowStart :=
        match st.low_start_time with
        | none => some now
        | some t => some t
      ({ last_alert_time := lastAlert, low_start_time := lowStart, was_low := true }, evs)
    else
      -- lines 449-477: not currently low (either plugged or percent > threshold)
      let evs :=
        if st.was_low = true ∧ cfg.threshold < s.percent then
          emitEvent cfg.telegram_enabled
            (.recoveryNotice s.percent (st.low_start_time.map (fun t0 => now - t0)))
        else []
      if s.plugged then
        ({ last_alert_time := none, low_start_time := none, was_low := false }, evs)
      else if cfg.threshold < s.percent then
        ({ st with was_low := false, low_start_time := none }, evs)
      else
        (st, evs)

/-- `True` on events of the `lowBatteryAlert` shape. -/
def AlertEvent.isLowAlert : AlertEvent → Bool
  | .lowBatteryAlert _ => true
  | .recoveryNotice _ _ => false

/-- `True` on events of the `recoveryNotice` shape. -/
def AlertEvent.isRecovery : AlertEvent → Bool
  | .lowBatteryAlert _ => false
  | .recoveryNotice _ _ => true

/-- Whether a tick's emission list contains a low-battery alert. -/
def emitsLowAlert (evs : List (Channel × AlertEvent)) : Bool :=
  evs.any fun e => e.2.isLowAlert

/-- Whether a tick's emission list contains a recovery notice. -/
def emitsRecovery (evs : List (Channel × AlertEvent)) : Bool :=
  evs.any fun e => e.2.isRecovery

/-- Run a sequence of ticks (each a sampler result paired with its `time.time()`
value) from a starting state, collecting every emission tagged with its tick
time. -/
def runTicks (cfg : Config) (st : MonitorState) :
    List (Option Sample × Int) → MonitorState × List (Int × Channel × AlertEvent)
  | [] => (st, [])
  | (info, now) :: rest =>
    let r := monitorTick cfg st info now
    let r2 := runTicks cfg r.1 rest
    (r2.1, r.2.map (fun e => (now, e.1, e.2)) ++ r2.2)

/-! ## Configuration store (`DEFAULT_CONFIG`, `load_config`, lines 134-150) -/

/-- A JSON scalar as stored in `monitor_config.json`. -/
inductive ConfigValue where
  | int (n : Int)
  | bool (b : Bool)
  | str (s : String)
  | null
  deriving DecidableEq, Repr

/-- A Python dict of config entries, modelled extensionally as a partial map
from key to value. -/
def ConfigMap := String → Option ConfigValue

/-- The module-level `DEFAULT_CONFIG` dict (lines 134-140), including the
`resend_minutes` key added right after the literal. -/
def DEFAULT_CONFIG : ConfigMap := fun k =>
  if k = "threshold" then some (.int 20)
  else if k = "interval" then some (.int 1)
  else if k = "telegram_enabled" then some (.bool false)
  else if k = "telegram_conf" then some .null
  else if k = "resend_minutes" then some (.int 5)
  else none

/-- Python's `a.update(b)`: keys of `b` override, all other keys of `a`
survive. -/
def updateMap (a b : ConfigMap) : ConfigMap := fun k =>
  match b k with
  | some v => some v
  | none => a k

/-- `load_config` (lines 143-150).  The module-level `DEFAULT_CONFIG` dict is
the mutable global, threaded explicitly; `file` is the outcome of
`json.load(open(CONFIG_PATH))` — `none` when any exception is raised (missing
file, bad JSON).  On success `DEFAULT_CONFIG.update(cfg)` mutates the global in
place; either way `dict(DEFAULT_CONFIG)` (a shallow copy with the same
entries) is returned.  Result: (new global, returned dict). -/
def load_config (globalCfg : ConfigMap) (file : Option ConfigMap) : ConfigMap × ConfigMap :=
  match file with
  | some cfg =>
    let g := updateMap globalCfg cfg
    (g, g)
  | none => (globalCfg, globalCfg)

/-- `int(m.get(k, d))` for the integer-valued settings (lines 423-425): the
stored value when it is an `int`, `int(True)=1`/`int(False)=0` for a stored
bool, the default when the key is absent.  (A stored string or null would
raise in Python; no claim exercises that path and the live keys are always
present in the merged global, which holds every default.) -/
def getIntOr (m : ConfigMap) (k : String) (d : Int) : Int :=
  match m k with
  | some (.int n) => n
  | some (.bool b) => if b then 1 else 0
  | _ => d

/-- Python truthiness of `m.get(k)` for the `telegram_enabled` reads. -/
def getTruthy (m : ConfigMap) (k : String) : Bool :=
  match m k with
  | some (.int n) => decide (n ≠ 0)
  | some (.bool b) => b
  | some (.str s) => decide (s ≠ "")
  | some .null => false
  | none => false

/-- The `Config` snapshot `_monitor_loop` extracts from its dict each cycle
(lines 423-426): `interval = int(cfg.get('interval', 1))`,
`threshold = int(cfg.get('threshold', 20))`,
`resend_seconds = int(cfg.get('resend_minutes', 5)) * 60`. -/
def configOfMap (m : ConfigMap) : Config :=
  { threshold := getIntOr m "threshold" 20
    interval := getIntOr m "interval" 1
    resend_seconds := getIntOr m "resend_minutes" 5 * 60
    telegram_enabled := getTruthy m "telegram_enabled" }

/-- Outcome of one full pass of the `while` body of `_monitor_loop`
(lines 419-482): the new global config dict, the new monitor state, this
cycle's emissions, and how many one-second sleep steps the cycle performs
(`for _ in range(int(interval)): time.sleep(1)`, empty when the interval is
non-positive). -/
structure CycleResult where
  newGlobal : ConfigMap
  newState : MonitorState
  events : List (Channel × AlertEvent)
  sleepSteps : Nat

/-- One full cycle of `_monitor_loop`: reload the config, read the sampler
(`info`), run the battery branch, then sleep.  The tick's `threshold`,
`resend_seconds`, `interval` and `telegram_enabled` come from the freshly
merged dict with no validation in between. -/
def monitorCycle (globalCfg : ConfigMap) (file : Option ConfigMap) (st : MonitorState)
    (info : Option Sample) (now : Int) : CycleResult :=
  let loaded := load_config globalCfg file
  let cfg := configOfMap loaded.2
  let r := monitorTick cfg st info now
  { newGlobal := loaded.1, newState := r.1, events := r.2, sleepSteps := cfg.interval.toNat }

/-! ## Lifecycle (`start_monitoring` / `stop_monitoring`, lines 282-298) -/

/-- The control-surface state of a `TrayMonitor`: the `_running` flag, the
`_stop_event`, and the episode state the background thread owns. -/
structure TrayState where
  running : Bool
  stop_event : Bool
  mstate : MonitorState
  deriving DecidableEq, Repr

/-- `start_monitoring` (lines 282-289): early-return when already running;
otherwise clear the stop event, spawn the thread, set `_running`, and notify
"Monitoring started on {hostname}".  Returns the new state and the messages
this call pushes through `_notify`. -/
def start_monitoring (hostname : String) (ts : TrayState) : TrayState × List String :=
  if ts.running then (ts, [])
  else
    ({ ts with stop_event := false, running := true }, [s!"Monitoring started on {hostname}"])

/-- `stop_monitoring` (lines 291-298): early-return when not running;
otherwise set the stop event, join the thread, clear `_running`, and notify
"Monitoring stopped on {hostname}". -/
def stop_monitoring (hostname : String) (ts : TrayState) : TrayState × List String :=
  if ts.running = false then (ts, [])
  else
    ({ ts with stop_event := true, running := false }, [s!"Monitoring stopped on {hostname}"])

/-! ## Episode traces -/

/-- The alert-emission times of a run of unplugged ticks, each tick given as
`(now, percent)`: the times at which the tick emitted a `lowBatteryAlert`. -/
def lowAlertTimes (cfg : Config) (st : MonitorState) : List (Int × Int) → List Int
  | [] => []
  | (now, p) :: rest =>
    let r := monitorTick cfg st (some ⟨p, false⟩) now
    (if emitsLowAlert r.2 then [now] else []) ++ lowAlertTimes cfg r.1 rest

/-- An uninterrupted low episode: every tick of the (unplugged) trace has
percent at or below the threshold. -/
def LowTrace (cfg : Config) (trace : List (Int × Int)) : Prop :=
  ∀ x ∈ trace, x.2 ≤ cfg.threshold

/-- The configuration of the spec's Scenario A-C: threshold 20 %, 1-second
poll interval, 300-second resend window, alerts enabled. -/
def scenarioCfg : Config :=
  { threshold := 20, interval := 1, resend_seconds := 300, telegram_enabled := true }

/-- The sample trace of the spec's Scenarios A-C: unplugged at 20/19/18/15 %
for t = 0/60/120/400, then plugged at 16 % at t = 450. -/
def scenarioCTrace : List (Option Sample × Int) :=
  [(some ⟨20, false⟩, 0), (some ⟨19, false⟩, 60), (some ⟨18, false⟩, 120),
   (some ⟨15, false⟩, 400), (some ⟨16, true⟩, 450)]

/-- A config file carrying out-of-domain values: a threshold above 100 and a
non-positive poll interval. -/
def badFile : ConfigMap := fun k =>
  if k = "threshold" then some (.int 150)
  else if k = "interval" then some (.int 0)
  else if k = "resend_minutes" then some (.int 5)
  else none

/-- A config file whose only entry is a key unknown to `DEFAULT_CONFIG`. -/
def mysteryFile : ConfigMap := fun k =>
  if k = "mystery" then some (.str "x") else none

/-- The empty config file. -/
def emptyFile : ConfigMap := fun _ => none

/-! ## Branch lemmas for `monitorTick` -/

theorem monitorTick_none (cfg : Config) (st : MonitorState) (now : Int) :
    monitorTick cfg st none now = (st, []) := rfl

theorem monitorTick_low_eq (cfg : Config) (st : MonitorState) (s : Sample) (now : Int)
    (hp : s.plugged = false) (hle : s.percent ≤ cfg.threshold) :
    monitorTick cfg st (some s) now =
      ({ last_alert_time :=
           if alertDue st.last_alert_time cfg.resend_seconds now then some now
           else st.last_alert_time,
         low_start_time := some (st.low_start_time.getD now),
         was_low := true },
       if alertDue st.last_alert_time cfg.resend_seconds now then
         emitEvent cfg.telegram_enabled (.lowBatteryAlert s.percent)
       else []) := by
  cases hst : st.low_start_time <;>
    simp [monitorTick, hp, hle, hst]

theorem monitorTick_plugged_eq (cfg : Config) (st : MonitorState) (s : Sample) (now : Int)
    (hp : s.plugged = true) :
    monitorTick cfg st (some s) now =
      ({ last_alert_time := none, low_start_time := none, was_low := false },
       if st.was_low = true ∧ cfg.threshold < s.percent then
         emitEvent cfg.telegram_enabled
           (.recoveryNotice s.percent (st.low_start_time.map (fun t0 => now - t0)))
       else []) := by
  simp [monitorTick, hp]

theorem monitorTick_recover_eq (cfg : Config) (st : MonitorState) (s : Sample) (now : Int)
    (hp : s.plugged = false) (hgt : cfg.threshold < s.percent) :
    monitorTick cfg st (some s) now =
      ({ st with was_low := false, low_start_time := none },
       if st.was_low = true then
         emitEvent cfg.telegram_enabled
           (.recoveryNotice s.percent (st.low_start_time.map (fun t0 => now - t0)))
       else []) := by
  have hnle : ¬ s.percent ≤ cfg.threshold := not_le.mpr hgt
  simp [monitorTick, hp, hgt, hnle]

theorem emitsLowAlert_emitEvent (b : Bool) (p : Int) :
    emitsLowAlert (emitEvent b (.lowBatteryAlert p)) = true := by
  cases b <;> simp [emitsLowAlert, emitEvent, AlertEvent.isLowAlert]

theorem emitsLowAlert_recovery (b : Bool) (p : Int) (d : Option Int) :
    emitsLowAlert (emitEvent b (.recoveryNotice p d)) = false := by
  cases b <;> simp [emitsLowAlert, emitEvent, AlertEvent.isLowAlert]

theorem emitsRecovery_emitEvent (b : Bool) (p : Int) (d : Option Int) :
    emitsRecovery (emitEvent b (.recoveryNotice p d)) = true := by
  cases b <;> simp [emitsRecovery, emitEvent, AlertEvent.isRecovery]

theorem emitsRecovery_lowAlert (b : Bool) (p : Int) :
    emitsRecovery (emitEvent b (.lowBatteryAlert p)) = false := by
  cases b <;> simp [emitsRecovery, emitEvent, AlertEvent.isRecovery]

theorem emitEvent_localNotify_filter (b : Bool) (ev : AlertEvent) :
    (emitEvent b ev).filter (fun e => decide (e.1 = Channel.localNotify)) = emitEvent false ev := by
  cases b <;> simp [emitEvent, List.filter]

/-- Behavior of a single unplugged tick with respect to low alerts: the alert
fires iff percent is at or below threshold and the resend gate is open, and
`_last_alert_time` becomes `now` exactly when it fires. -/
theorem lowTick_alert_behavior (cfg : Config) (st : MonitorState) (p now : Int) :
    emitsLowAlert (monitorTick cfg st (some ⟨p, false⟩) now).2 =
      (decide (p ≤ cfg.threshold) && alertDue st.last_alert_time cfg.resend_seconds now) ∧
    (monitorTick cfg st (some ⟨p, false⟩) now).1.last_alert_time =
      (if (decide (p ≤ cfg.threshold) &&
            alertDue st.last_alert_time cfg.resend_seconds now) = true
       then some now else st.last_alert_time) := by
  by_cases hle : p ≤ cfg.threshold
  · rw [monitorTick_low_eq cfg st ⟨p, false⟩ now rfl hle]
    cases hfire : alertDue st.last_alert_time cfg.resend_seconds now
    · simp [emitsLowAlert, hle, hfire]
    · simp [emitsLowAlert_emitEvent, hle, hfire]
  · have hgt : cfg.threshold < p := not_le.mp hle
    rw [monitorTick_recover_eq cfg st ⟨p, false⟩ now rfl hgt]
    constructor
    · cases hw : st.was_low
      · simp [emitsLowAlert, hle, hw]
      · simp [emitsLowAlert_recovery, hle, hw]
    · simp [hle]

/-- Spacing invariant for an unplugged run: the emitted alert times are
pairwise at least `resend_seconds` apart, and every emitted alert time is at
least `resend_seconds` after a pre-existing `_last_alert_time`. -/
theorem lowAlertTimes_spaced_aux (cfg : Config) (hres : 0 ≤ cfg.resend_seconds) :
    ∀ (trace : List (Int × Int)) (st : MonitorState),
      (lowAlertTimes cfg st trace).Pairwise (fun a b => cfg.resend_seconds ≤ b - a) ∧
      (∀ τ, st.last_alert_time = some τ →
        ∀ a ∈ lowAlertTimes cfg st trace, cfg.resend_seconds ≤ a - τ) := by
  intro trace
  induction trace with
  | nil =>
    intro st
    exact ⟨List.Pairwise.nil, fun τ _ a ha => absurd ha (List.not_mem_nil a)⟩
  | cons hd rest ih =>
    intro st
    obtain ⟨now, p⟩ := hd
    obtain ⟨hEmit, hLast⟩ := lowTick_alert_behavior cfg st p now
    have hstep : lowAlertTimes cfg st ((now, p) :: rest) =
        (if emitsLowAlert (monitorTick cfg st (some ⟨p, false⟩) now).2 then [now] else []) ++
          lowAlertTimes cfg (monitorTick cfg st (some ⟨p, false⟩) now).1 rest := rfl
    cases hb : (decide (p ≤ cfg.threshold) && alertDue st.last_alert_time cfg.resend_seconds now)
    · rw [hb] at hEmit hLast
      simp only [Bool.false_eq_true, if_false] at hLast
      have hstep' : lowAlertTimes cfg st ((now, p) :: rest) =
          lowAlertTimes cfg (monitorTick cfg st (some ⟨p, false⟩) now).1 rest := by
        rw [hstep, hEmit]
        simp
      obtain ⟨pw, link⟩ := ih (monitorTick cfg st (some ⟨p, false⟩) now).1
      rw [hstep']
      refine ⟨pw, fun τ hτ a ha => link τ (by rw [hLast, hτ]) a ha⟩
    · rw [hb] at hEmit hLast
      simp only [if_true] at hLast
      have hstep' : lowAlertTimes cfg st ((now, p) :: rest) =
          now :: lowAlertTimes cfg (monitorTick cfg st (some ⟨p, false⟩) now).1 rest := by
        rw [hstep, hEmit]
        simp
      obtain ⟨pw, link⟩ := ih (monitorTick cfg st (some ⟨p, false⟩) now).1
      rw [hstep']
      have hgap : ∀ a ∈ lowAlertTimes cfg (monitorTick cfg st (some ⟨p, false⟩) now).1 rest,
          cfg.resend_seconds ≤ a - now := fun a ha => link now hLast a ha
      refine ⟨List.pairwise_cons.mpr ⟨hgap, pw⟩, ?_⟩
      intro τ hτ a ha
      have hdue : alertDue st.last_alert_time cfg.resend_seconds now = true :=
        (Bool.and_eq_true _ _ |>.mp hb).2
      have hnowτ : cfg.resend_seconds ≤ now - τ := by
        rw [hτ] at hdue
        simpa [alertDue] using hdue
      rcases List.mem_cons.mp ha with rfl | ha'
      · exact hnowτ
      · have := hgap a ha'
        omega

/-! ## Claim theorems -/

/-- C5: on every tick whose sample has `plugged = true`, the transition clears
`_was_low`, `_low_start_time` and `_last_alert_time` unconditionally,
regardless of percent; hence `lastAlertAt` is empty immediately after any
plugged tick. -/
theorem c5_plugged_clears (cfg : Config) (st : MonitorState) (s : Sample) (now : Int)
    (hp : s.plugged = true) :
    (monitorTick cfg st (some s) now).1.last_alert_time = none ∧
    (monitorTick cfg st (some s) now).1.low_start_time = none ∧
    (monitorTick cfg st (some s) now).1.was_low = false := by
  simp [monitorTick_plugged_eq cfg st s now hp]

/-- Witness for C5 at a plugged sample with percent 50. -/
theorem c5_witness :
    (⟨50, true⟩ : Sample).plugged = true ∧
    ((monitorTick scenarioCfg ⟨some 3, some 1, true⟩ (some ⟨50, true⟩) 9).1.last_alert_time = none ∧
     (monitorTick scenarioCfg ⟨some 3, some 1, true⟩ (some ⟨50, true⟩) 9).1.low_start_time = none ∧
     (monitorTick scenarioCfg ⟨some 3, some 1, true⟩ (some ⟨50, true⟩) 9).1.was_low = false) :=
  ⟨rfl, c5_plugged_clears scenarioCfg ⟨some 3, some 1, true⟩ ⟨50, true⟩ 9 rfl⟩

/-- C6: once `_was_low` is true it stays true on every tick that is unplugged
with percent ≤ threshold; the only ticks that clear it are plugged ones or
ones with percent > threshold; a sensor-unavailable tick changes nothing. -/
theorem c6_low_state_monotone :
    (∀ (cfg : Config) (st : MonitorState) (s : Sample) (now : Int),
        st.was_low = true → s.plugged = false → s.percent ≤ cfg.threshold →
        (monitorTick cfg st (some s) now).1.was_low = true) ∧
    (∀ (cfg : Config) (st : MonitorState) (s : Sample) (now : Int),
        (monitorTick cfg st (some s) now).1.was_low = false →
        s.plugged = true ∨ cfg.threshold < s.percent) ∧
    (∀ (cfg : Config) (st : MonitorState) (now : Int),
        (monitorTick cfg st none now).1 = st) := by
  refine ⟨?_, ?_, ?_⟩
  · intro cfg st s now _ hp hle
    simp [monitorTick_low_eq cfg st s now hp hle]
  · intro cfg st s now hres
    by_cases hp : s.plugged = true
    · exact Or.inl hp
    · have hp' : s.plugged = false := by simpa using hp
      by_cases hle : s.percent ≤ cfg.threshold
      · rw [monitorTick_low_eq cfg st s now hp' hle] at hres
        simp at hres
      · exact Or.inr (not_le.mp hle)
  · intro cfg st now
    rfl

/-- Witness for C6 at a mid-episode low tick. -/
theorem c6_witness :
    ((⟨some 0, some 0, true⟩ : MonitorState).was_low = true ∧
     (⟨15, false⟩ : Sample).plugged = false ∧
     (⟨15, false⟩ : Sample).percent ≤ scenarioCfg.threshold) ∧
    (monitorTick scenarioCfg ⟨some 0, some 0, true⟩ (some ⟨15, false⟩) 60).1.was_low = true :=
  ⟨⟨rfl, rfl, by decide⟩,
   c6_low_state_monotone.1 scenarioCfg ⟨some 0, some 0, true⟩ ⟨15, false⟩ 60 rfl rfl (by decide)⟩

/-- C7: when the sampler returns no data, the cycle leaves the monitor state
unchanged, emits nothing, still sleeps the configured interval, and the run
continues with the next tick exactly as if the failed tick were absent. -/
theorem c7_sensor_unavailable (g : ConfigMap) (file : Option ConfigMap)
    (st : MonitorState) (now : Int) :
    (monitorCycle g file st none now).newState = st ∧
    (monitorCycle g file st none now).events = [] ∧
    (monitorCycle g file st none now).sleepSteps =
      (configOfMap (load_config g file).2).interval.toNat ∧
    (∀ (cfg : Config) (t : Int) (rest : List (Option Sample × Int)),
        runTicks cfg st ((none, t) :: rest) = runTicks cfg st rest) := by
  refine ⟨rfl, rfl, rfl, ?_⟩
  intro cfg t rest
  simp [runTicks, monitorTick]

/-- C8: `start_monitoring` when already running and `stop_monitoring` when not
running are no-ops that emit nothing; two consecutive starts have the same
effect on the state as one, and the second emits nothing. -/
theorem c8_lifecycle_idempotent (hostname : String) (ts : TrayState) :
    (ts.running = true → start_monitoring hostname ts = (ts, [])) ∧
    (ts.running = false → stop_monitoring hostname ts = (ts, [])) ∧
    (start_monitoring hostname (start_monitoring hostname ts).1).1 =
      (start_monitoring hostname ts).1 ∧
    (start_monitoring hostname (start_monitoring hostname ts).1).2 = [] := by
  refine ⟨?_, ?_, ?_, ?_⟩
  · intro h
    simp [start_monitoring, h]
  · intro h
    simp [stop_monitoring, h]
  · by_cases h : ts.running <;> simp [start_monitoring, h]
  · by_cases h : ts.running <;> simp [start_monitoring, h]

/-- Witness for C8: a redundant start and a redundant stop on concrete states. -/
theorem c8_witness :
    ((⟨true, false, MonitorState.initial⟩ : TrayState).running = true ∧
      start_monitoring "host" ⟨true, false, MonitorState.initial⟩ =
        (⟨true, false, MonitorState.initial⟩, [])) ∧
    ((⟨false, true, MonitorState.initial⟩ : TrayState).running = false ∧
      stop_monitoring "host" ⟨false, true, MonitorState.initial⟩ =
        (⟨false, true, MonitorState.initial⟩, [])) :=
  ⟨⟨rfl, (c8_lifecycle_idempotent "host" ⟨true, false, MonitorState.initial⟩).1 rfl⟩,
   ⟨rfl, (c8_lifecycle_idempotent "host" ⟨false, true, MonitorState.initial⟩).2.1 rfl⟩⟩

/-- C9: ending a low episode by percent rising above threshold while unplugged
retains `_last_alert_time`; a new low tick within the resend window of that
retained alert emits nothing — throttling carries across unplugged episode
boundaries. -/
theorem c9_alert_memory_carries (cfg : Config) (st : MonitorState) (s : Sample) (now : Int) :
    (s.plugged = false → cfg.threshold < s.percent →
      (monitorTick cfg st (some s) now).1.last_alert_time = st.last_alert_time) ∧
    (∀ τ, s.plugged = false → s.percent ≤ cfg.threshold →
      st.last_alert_time = some τ → now - τ < cfg.resend_seconds →
      (monitorTick cfg st (some s) now).2 = []) := by
  constructor
  · intro hp hgt
    simp [monitorTick_recover_eq cfg st s now hp hgt]
  · intro τ hp hle hlast hlt
    have hdue : alertDue st.last_alert_time cfg.resend_seconds now = false := by
      simp only [alertDue, hlast, decide_eq_false_iff_not]
      omega
    simp [monitorTick_low_eq cfg st s now hp hle, hdue]

/-- Witness for C9: a low tick at t = 200 after an alert at t = 100, inside
the 300-second resend window, emits nothing. -/
theorem c9_witness :
    ((⟨18, false⟩ : Sample).plugged = false ∧
     (⟨18, false⟩ : Sample).percent ≤ scenarioCfg.threshold ∧
     (⟨some 100, none, false⟩ : MonitorState).last_alert_time = some 100 ∧
     (200 : Int) - 100 < scenarioCfg.resend_seconds) ∧
    (monitorTick scenarioCfg ⟨some 100, none, false⟩ (some ⟨18, false⟩) 200).2 = [] :=
  ⟨⟨rfl, by decide, rfl, by decide⟩,
   (c9_alert_memory_carries scenarioCfg ⟨some 100, none, false⟩ ⟨18, false⟩ 200).2 100
     rfl (by decide) rfl (by decide)⟩

/-- C10: `load_config` merges the file into the module-level dict in place:
a successful load replaces the global with the merged dict and returns it, a
failed read returns the current global (last-known-good, not the original
defaults), unknown fields survive into every subsequent load that does not
override them, and the returned dict always has exactly the global's
entries. -/
theorem c10_load_config_global_merge :
    (∀ g f, load_config g (some f) = (updateMap g f, updateMap g f)) ∧
    (∀ g, load_config g none = (g, g)) ∧
    (∀ (g f1 f2 : ConfigMap) (k : String) (v : ConfigValue),
        f1 k = some v → f2 k = none →
        (load_config (load_config g (some f1)).1 (some f2)).2 k = some v) ∧
    (∀ (g f1 : ConfigMap), (load_config (load_config g (some f1)).1 none).2 = updateMap g f1) ∧
    (∀ g file, (load_config g file).2 = (load_config g file).1) := by
  refine ⟨fun g f => rfl, fun g => rfl, ?_, fun g f1 => rfl, ?_⟩
  · intro g f1 f2 k v h1 h2
    simp [load_config, updateMap, h1, h2]
  · intro g file
    cases file <;> rfl

/-- Witness for C10: the unknown key `"mystery"` loaded once persists into the
result of a subsequent load of an empty file. -/
theorem c10_witness :
    (mysteryFile "mystery" = some (.str "x") ∧ emptyFile "mystery" = none) ∧
    (load_config (load_config DEFAULT_CONFIG (some mysteryFile)).1 (some emptyFile)).2 "mystery" =
      some (.str "x") :=
  ⟨⟨by decide, rfl⟩,
   c10_load_config_global_merge.2.2.1 DEFAULT_CONFIG mysteryFile emptyFile "mystery"
     (.str "x") (by decide) rfl⟩

/-- C2: on a low tick the alert fires iff `_last_alert_time` is unset or at
least `resend_seconds` old, and is set to `now` exactly on emission; within
an uninterrupted low episode the emitted alert times are pairwise at least
`resend_seconds` apart for any non-negative resend interval, and a zero
resend interval fires on every low tick of a monotone clock. -/
theorem c2_alert_resend_throttling (cfg : Config) (hres : 0 ≤ cfg.resend_seconds) :
    (∀ (st : MonitorState) (s : Sample) (now : Int),
        s.plugged = false → s.percent ≤ cfg.threshold →
        ((emitsLowAlert (monitorTick cfg st (some s) now).2 = true ↔
            (st.last_alert_time = none ∨
              ∃ τ, st.last_alert_time = some τ ∧ cfg.resend_seconds ≤ now - τ)) ∧
          (monitorTick cfg st (some s) now).1.last_alert_time =
            (if emitsLowAlert (monitorTick cfg st (some s) now).2 = true then some now
             else st.last_alert_time))) ∧
    (∀ (st : MonitorState) (trace : List (Int × Int)), LowTrace cfg trace →
        (lowAlertTimes cfg st trace).Pairwise (fun a b => cfg.resend_seconds ≤ b - a)) ∧
    (cfg.resend_seconds = 0 →
      ∀ (st : MonitorState) (s : Sample) (now : Int),
        s.plugged = false → s.percent ≤ cfg.threshold →
        (∀ τ, st.last_alert_time = some τ → τ ≤ now) →
        emitsLowAlert (monitorTick cfg st (some s) now).2 = true) := by
  refine ⟨?_, ?_, ?_⟩
  · intro st s now hp hle
    obtain ⟨p, pl⟩ := s
    subst hp
    obtain ⟨hEmit, hLast⟩ := lowTick_alert_behavior cfg st p now
    have hle' : decide (p ≤ cfg.threshold) = true := decide_eq_true hle
    rw [hle', Bool.true_and] at hEmit hLast
    constructor
    · rw [hEmit]
      cases hlast : st.last_alert_time with
      | none => simp [alertDue]
      | some τ =>
        simp only [alertDue]
        constructor
        · intro h
          exact Or.inr ⟨τ, rfl, of_decide_eq_true h⟩
        · rintro (h | ⟨τ', hτ', hge⟩)
          · exact absurd h (by simp)
          · cases Option.some.injEq τ τ' ▸ hτ' with
            | refl => exact decide_eq_true hge
    · rw [hLast, hEmit]
  · intro st trace _
    exact (lowAlertTimes_spaced_aux cfg hres trace st).1
  · intro hr0 st s now hp hle hmono
    obtain ⟨p, pl⟩ := s
    subst hp
    obtain ⟨hEmit, _⟩ := lowTick_alert_behavior cfg st p now
    have hle' : decide (p ≤ cfg.threshold) = true := decide_eq_true hle
    rw [hle', Bool.true_and] at hEmit
    rw [hEmit]
    cases hlast : st.last_alert_time with
    | none => simp [alertDue]
    | some τ =>
      have := hmono τ hlast
      simp only [alertDue, hr0]
      exact decide_eq_true (by omega)

/-- Witness for C2: the spec's Scenario A — with a 300-second resend window,
the first low tick fires and the emitted alert times of the whole low run are
300 seconds apart pairwise. -/
theorem c2_witness :
    ((0 : Int) ≤ scenarioCfg.resend_seconds ∧
     (⟨15, false⟩ : Sample).plugged = false ∧
     (⟨15, false⟩ : Sample).percent ≤ scenarioCfg.threshold ∧
     LowTrace scenarioCfg [(0, 20), (60, 19), (120, 18), (400, 15)]) ∧
    emitsLowAlert (monitorTick scenarioCfg MonitorState.initial (some ⟨15, false⟩) 0).2 = true ∧
    (lowAlertTimes scenarioCfg MonitorState.initial
        [(0, 20), (60, 19), (120, 18), (400, 15)]).Pairwise
      (fun a b => scenarioCfg.resend_seconds ≤ b - a) :=
  ⟨⟨by decide, rfl, by decide, by unfold LowTrace; decide⟩,
   ((c2_alert_resend_throttling scenarioCfg (by decide)).1 MonitorState.initial ⟨15, false⟩ 0
      rfl (by decide)).1.mpr (Or.inl rfl),
   (c2_alert_resend_throttling scenarioCfg (by decide)).2.1 MonitorState.initial
      [(0, 20), (60, 19), (120, 18), (400, 15)] (by unfold LowTrace; decide)⟩

/-- C1 counterexample: in the spec's Scenario C trace the low episode that
starts at t = 0 ends at t = 450 by plugging in at 16 % ≤ threshold, yet the
whole run emits zero `recoveryNotice` events — not the one the claim
requires. -/
theorem c1_counterexample :
    (runTicks scenarioCfg MonitorState.initial (scenarioCTrace.take 4)).1.was_low = true ∧
    (runTicks scenarioCfg MonitorState.initial scenarioCTrace).1.was_low = false ∧
    ((runTicks scenarioCfg MonitorState.initial scenarioCTrace).2.filter
        (fun e => e.2.2.isRecovery)) = [] := by
  decide

/-- C1 (amended): a `recoveryNotice` is emitted at a tick iff the previous
state was low and the sample's percent is strictly above threshold — an
episode ended by plugging in at percent ≤ threshold emits nothing and the
state is silently cleared; when a notice is emitted with `lowSince = t0` its
duration is `now - t0` and the low flag is cleared, so at most one notice per
episode. -/
theorem c1_recovery_only_above_threshold (cfg : Config) (st : MonitorState)
    (s : Sample) (now : Int) :
    (emitsRecovery (monitorTick cfg st (some s) now).2 =
      (st.was_low && decide (cfg.threshold < s.percent))) ∧
    (st.was_low = true → cfg.threshold < s.percent →
      ∀ t0, st.low_start_time = some t0 →
        (monitorTick cfg st (some s) now).2 =
          emitEvent cfg.telegram_enabled (.recoveryNotice s.percent (some (now - t0))) ∧
        (monitorTick cfg st (some s) now).1.was_low = false) ∧
    (st.was_low = true → s.plugged = true → s.percent ≤ cfg.threshold →
      (monitorTick cfg st (some s) now).2 = [] ∧
      (monitorTick cfg st (some s) now).1 = MonitorState.initial) := by
  by_cases hp : s.plugged = true
  · rw [monitorTick_plugged_eq cfg st s now hp]
    refine ⟨?_, ?_, ?_⟩
    · by_cases hc : st.was_low = true ∧ cfg.threshold < s.percent
      · rw [if_pos hc, emitsRecovery_emitEvent, hc.1]
        simp [hc.2]
      · rw [if_neg hc]
        cases hw : st.was_low
        · simp [emitsRecovery]
        · have hnlt : ¬ cfg.threshold < s.percent := fun hlt => hc ⟨hw, hlt⟩
          simp [emitsRecovery, hnlt]
    · intro hw hlt t0 ht0
      simp [hw, hlt, ht0]
    · intro hw _ hle
      have hnlt : ¬ cfg.threshold < s.percent := not_lt.mpr hle
      simp [hw, hnlt, MonitorState.initial]
  · have hp' : s.plugged = false := by simpa using hp
    by_cases hle : s.percent ≤ cfg.threshold
    · rw [monitorTick_low_eq cfg st s now hp' hle]
      refine ⟨?_, ?_, ?_⟩
      · have hnlt : ¬ cfg.threshold < s.percent := not_lt.mpr hle
        by_cases hfire : alertDue st.last_alert_time cfg.resend_seconds now = true
        · dsimp only
          rw [if_pos hfire, emitsRecovery_lowAlert]
          simp [hnlt]
        · dsimp only
          rw [if_neg hfire]
          simp [emitsRecovery, hnlt]
      · intro _ hlt
        exact absurd hlt (not_lt.mpr hle)
      · intro _ hpl
        exact absurd hpl (by simpa using hp)
    · have hgt : cfg.threshold < s.percent := not_le.mp hle
      rw [monitorTick_recover_eq cfg st s now hp' hgt]
      refine ⟨?_, ?_, ?_⟩
      · cases hw : st.was_low
        · simp [emitsRecovery]
        · simp [emitsRecovery_emitEvent, hgt]
      · intro hw _ t0 ht0
        simp [hw, ht0]
      · intro _ hpl
        exact absurd hpl (by simpa using hp)

/-- Witness for C1 (amended): an episode with `lowSince = 0` ending unplugged
at 25 % at t = 450 emits one recovery notice of duration 450. -/
theorem c1_witness :
    ((⟨some 0, some 0, true⟩ : MonitorState).was_low = true ∧
     scenarioCfg.threshold < (25 : Int) ∧
     (⟨some 0, some 0, true⟩ : MonitorState).low_start_time = some 0) ∧
    ((monitorTick scenarioCfg ⟨some 0, some 0, true⟩ (some ⟨25, false⟩) 450).2 =
       emitEvent scenarioCfg.telegram_enabled (.recoveryNotice 25 (some (450 - 0))) ∧
     (monitorTick scenarioCfg ⟨some 0, some 0, true⟩ (some ⟨25, false⟩) 450).1.was_low = false) :=
  ⟨⟨rfl, by decide, rfl⟩,
   (c1_recovery_only_above_threshold scenarioCfg ⟨some 0, some 0, true⟩ ⟨25, false⟩ 450).2.1
     rfl (by decide) 0 rfl⟩

/-- C3 counterexample: with `telegram_enabled = false`, a low tick still
emits the low-battery alert on the local notification channel — the claim's
"no alert is emitted on any channel" fails. -/
theorem c3_counterexample :
    ({ scenarioCfg with telegram_enabled := false } : Config).telegram_enabled = false ∧
    (monitorTick { scenarioCfg with telegram_enabled := false } MonitorState.initial
        (some ⟨10, false⟩) 0).2 =
      [(Channel.localNotify, AlertEvent.lowBatteryAlert 10)] := by
  decide

/-- C3 (amended): `telegram_enabled = false` suppresses exactly the telegram
channel — the local notification channel still emits every alert — and the
state transition is identical to the enabled run, so re-enabling mid-episode
does not change the resend schedule. -/
theorem c3_telegram_only_gates_channel (cfg : Config) (st : MonitorState)
    (info : Option Sample) (now : Int) :
    (monitorTick { cfg with telegram_enabled := false } st info now).1 =
      (monitorTick cfg st info now).1 ∧
    (monitorTick { cfg with telegram_enabled := false } st info now).2 =
      (monitorTick cfg st info now).2.filter (fun e => decide (e.1 = Channel.localNotify)) := by
  cases info with
  | none => exact ⟨rfl, rfl⟩
  | some s =>
    by_cases hp : s.plugged = true
    · rw [monitorTick_plugged_eq { cfg with telegram_enabled := false } st s now hp,
        monitorTick_plugged_eq cfg st s now hp]
      refine ⟨rfl, ?_⟩
      by_cases hc : st.was_low = true ∧ cfg.threshold < s.percent
      · simp [hc.1, hc.2, emitEvent_localNotify_filter]
      · simp only [Config.threshold] at *
        simp [hc]
    · have hp' : s.plugged = false := by simpa using hp
      by_cases hle : s.percent ≤ cfg.threshold
      · rw [monitorTick_low_eq { cfg with telegram_enabled := false } st s now hp' hle,
          monitorTick_low_eq cfg st s now hp' hle]
        by_cases hfire : alertDue st.last_alert_time cfg.resend_seconds now = true
        · exact ⟨rfl, by simp [hfire, emitEvent_localNotify_filter]⟩
        · exact ⟨rfl, by simp [hfire]⟩
      · have hgt : cfg.threshold < s.percent := not_le.mp hle
        rw [monitorTick_recover_eq { cfg with telegram_enabled := false } st s now hp' hgt,
          monitorTick_recover_eq cfg st s now hp' hgt]
        refine ⟨rfl, ?_⟩
        by_cases hw : st.was_low = true
        · simp [hw, emitEvent_localNotify_filter]
        · simp [hw]

/-- C4 counterexample: a config file with threshold 150 and interval 0 is
loaded untouched — no clamping, no rejection — and those values drive the
tick: an alert fires at 100 % charge and the cycle performs zero sleep
steps. -/
theorem c4_counterexample :
    (configOfMap (load_config DEFAULT_CONFIG (some badFile)).2).threshold = 150 ∧
    (configOfMap (load_config DEFAULT_CONFIG (some badFile)).2).interval = 0 ∧
    emitsLowAlert (monitorCycle DEFAULT_CONFIG (some badFile) MonitorState.initial
        (some ⟨100, false⟩) 0).events = true ∧
    (monitorCycle DEFAULT_CONFIG (some badFile) MonitorState.initial
        (some ⟨100, false⟩) 0).sleepSteps = 0 := by
  decide

/-- C4 (amended): `load_config` performs no domain validation — whatever
integers the file supplies for `threshold`, `interval` and `resend_minutes`
are returned unchanged and are exactly the values the cycle's per-tick
evaluation runs with (a non-positive interval yielding `toNat` sleep
steps, i.e. zero). -/
theorem c4_no_config_validation (g f : ConfigMap) (t i r : Int)
    (ht : f "threshold" = some (.int t)) (hi : f "interval" = some (.int i))
    (hr : f "resend_minutes" = some (.int r)) :
    (configOfMap (load_config g (some f)).2).threshold = t ∧
    (configOfMap (load_config g (some f)).2).interval = i ∧
    (configOfMap (load_config g (some f)).2).resend_seconds = r * 60 ∧
    (∀ (st : MonitorState) (info : Option Sample) (now : Int),
        (monitorCycle g (some f) st info now).newState =
          (monitorTick (configOfMap (load_config g (some f)).2) st info now).1 ∧
        (monitorCycle g (some f) st info now).events =
          (monitorTick (configOfMap (load_config g (some f)).2) st info now).2 ∧
        (monitorCycle g (some f) st info now).sleepSteps = i.toNat) := by
  refine ⟨?_, ?_, ?_, ?_⟩
  · simp [configOfMap, getIntOr, load_config, updateMap, ht]
  · simp [configOfMap, getIntOr, load_config, updateMap, hi]
  · simp [configOfMap, getIntOr, load_config, updateMap, hr]
  · intro st info now
    refine ⟨rfl, rfl, ?_⟩
    simp [monitorCycle, configOfMap, getIntOr, load_config, updateMap, hi]

/-- Witness for C4 (amended): the out-of-domain file values 150 / 0 flow
through `load_config` into the cycle unchanged. -/
theorem c4_witness :
    (badFile "threshold" = some (.int 150) ∧ badFile "interval" = some (.int 0) ∧
     badFile "resend_minutes" = some (.int 5)) ∧
    (configOfMap (load_config DEFAULT_CONFIG (some badFile)).2).threshold = 150 ∧
    (monitorCycle DEFAULT_CONFIG (some badFile) MonitorState.initial
        (some ⟨100, false⟩) 0).sleepSteps = (0 : Int).toNat :=
  ⟨⟨by decide, by decide, by decide⟩,
   (c4_no_config_validation DEFAULT_CONFIG badFile 150 0 5
      (by decide) (by decide) (by decide)).1,
   ((c4_no_config_validation DEFAULT_CONFIG badFile 150 0 5
      (by decide) (by decide) (by decide)).2.2.2 MonitorState.initial
        (some ⟨100, false⟩) 0).2.2⟩

end BatteryMonitor
